import Mathlib

/-!
Shallow embedding of the completion-event correlation and synchronization
engine of the WA_Monitor repository (services/done_message_detector.py,
services/qa_feedback_tracker.py, services/group_service_template.py),
together with proofs of its specified properties.

Strings are modelled as lists of characters; the small regular-expression
subset actually used by the code (case-insensitive literals, runs of
whitespace, bounded digit captures, word boundaries) is embedded directly.
-/

/-- Whitespace as recognized by the str.strip and regex whitespace class
used in the code (ASCII subset). -/
def pyIsSpace (c : Char) : Bool :=
  c = ' ' || c = '\t' || c = '\n' || c = '\r' || c = Char.ofNat 11 || c = Char.ofNat 12

/-- str.lower, applied character by character. -/
def pyLower (s : List Char) : List Char := s.map Char.toLower

/-- str.strip: remove leading and trailing whitespace. -/
def pyStrip (s : List Char) : List Char :=
  ((s.dropWhile pyIsSpace).reverse.dropWhile pyIsSpace).reverse

/-- Regex word character (ASCII subset of the w class): letter, digit or
underscore. -/
def isWordChar (c : Char) : Bool := c.isAlpha || c.isDigit || c = '_'

/-- Match a literal case-insensitively (re.IGNORECASE) at the head of the
input; return the remaining input on success. -/
def matchLit : List Char → List Char → Option (List Char)
  | [], s => some s
  | _ :: _, [] => none
  | c :: cs, x :: xs => if c.toLower = x.toLower then matchLit cs xs else none

/-- One token of the drop-number extraction patterns of
extract_drop_number_from_message: a case-insensitive literal or a greedy
run of optional whitespace. -/
inductive PTok where
  | lit : List Char → PTok
  | ws : PTok

/-- Match a token sequence at the head of the input, returning the rest. -/
def matchToks : List PTok → List Char → Option (List Char)
  | [], s => some s
  | PTok.lit l :: ts, s =>
      match matchLit l s with
      | some r => matchToks ts r
      | none => none
  | PTok.ws :: ts, s => matchToks ts (s.dropWhile pyIsSpace)

/-- A drop-number surface pattern: a token sequence followed by a captured
digit run of one to seven digits (the regex capture group). -/
structure DropPat where
  pre : List PTok

/-- Attempt a drop pattern at the current position: after the leading
tokens, capture a greedy digit run bounded to seven digits, requiring at
least one digit. -/
def matchDropAt (p : DropPat) (s : List Char) : Option (List Char) :=
  match matchToks p.pre s with
  | none => none
  | some rest =>
      if ((rest.takeWhile Char.isDigit).take 7).isEmpty then none
      else some ((rest.takeWhile Char.isDigit).take 7)

/-- re.search: try the pattern at each position from the left, returning
the leftmost capture. -/
def searchDrop (p : DropPat) : List Char → Option (List Char)
  | [] => matchDropAt p []
  | c :: rest =>
      match matchDropAt p (c :: rest) with
      | some ds => some ds
      | none => searchDrop p rest

/-- The ordered pattern list of extract_drop_number_from_message. -/
def dropPatterns : List DropPat :=
  [ ⟨[PTok.lit "DR".data]⟩,
    ⟨[PTok.lit "dr".data]⟩,
    ⟨[PTok.lit "DR:".data, PTok.ws]⟩,
    ⟨[PTok.lit "dr:".data, PTok.ws]⟩,
    ⟨[PTok.lit "Drop:".data, PTok.ws, PTok.lit "DR".data]⟩,
    ⟨[PTok.lit "drop:".data, PTok.ws, PTok.lit "dr".data]⟩,
    ⟨[PTok.lit "Drop".data, PTok.ws]⟩,
    ⟨[PTok.lit "drop".data, PTok.ws]⟩,
    ⟨[PTok.lit "drop".data, PTok.ws, PTok.lit "number".data, PTok.ws]⟩ ]

/-- str.zfill(7) on the captured digits: left-pad with zeros when shorter
than seven characters, otherwise unchanged. -/
def zfill7 (ds : List Char) : List Char :=
  if ds.length < 7 then List.replicate (7 - ds.length) '0' ++ ds else ds

/-- The first-match loop of extract_drop_number_from_message: try each
pattern in order; on the first hit, pad the capture and prefix DR. -/
def extractGo : List DropPat → List Char → Option String
  | [], _ => none
  | p :: ps, s =>
      match searchDrop p s with
      | some ds => some (String.mk ('D' :: 'R' :: zfill7 ds))
      | none => extractGo ps s

/-- extract_drop_number_from_message (done_message_detector.py lines
125-151). -/
def extract_drop_number_from_message (content : String) : Option String :=
  extractGo dropPatterns content.data

/-- Search for a whole-word literal (a DONE_PATTERNS entry, regex form
word-boundary literal word-boundary) anywhere in the input, tracking the
previous character for the left boundary. Every literal in DONE_PATTERNS
begins and ends with a word character, so the boundary condition reduces
to the adjacent character being absent or a non-word character. -/
def searchBLit (l : List Char) (prev : Option Char) : List Char → Bool
  | [] =>
      ((match prev with | none => true | some c => !isWordChar c) &&
        (match matchLit l [] with
          | some _ => true
          | none => false))
  | c :: rest =>
      ((match prev with | none => true | some p => !isWordChar p) &&
        (match matchLit l (c :: rest) with
          | some [] => true
          | some (n :: _) => !isWordChar n
          | none => false)) ||
      searchBLit l (some c) rest

/-- DONE_PATTERNS (done_message_detector.py lines 73-88): whole-word
completion keywords across several languages. The apostrophe in the
photo-list entry is written via its code point. -/
def donePatterns : List (List Char) :=
  [ "done".data, "completed".data, "finished".data, "sorted".data,
    "sortered".data, "regulateer".data, "voltooi".data, "afgehandel".data,
    "klaar".data, "ready".data, "alle plessing".data,
    "alle foto".data ++ [Char.ofNat 39] ++ "s".data,
    "all photos".data, "all pictures".data ]

/-- is_done_message (done_message_detector.py lines 110-123): reject empty
or whitespace-only content, then test the lowered, stripped content
against every completion pattern. -/
def is_done_message (content : String) : Bool :=
  if content.data.isEmpty || (pyStrip content.data).isEmpty then false
  else donePatterns.any (fun p => searchBLit p none (pyStrip (pyLower content.data)))

/-- find_drop_number_in_context (done_message_detector.py lines 153-167):
extract from the current message first; otherwise apply the extraction to
the first ten entries of the supplied context list. -/
def find_drop_number_in_context (content : String) (recent_messages : List String) : Option String :=
  match extract_drop_number_from_message content with
  | some d => some d
  | none =>
      (recent_messages.take 10).foldr
        (fun msg acc =>
          match extract_drop_number_from_message msg with
          | some d => some d
          | none => acc) none

/-- get_recent_messages_from_chat (done_message_detector.py lines
239-261): the SQL query selects the most recent limit nonempty-content
messages (ORDER BY timestamp DESC LIMIT limit) and the result list is
reversed into chronological order. chatMessages is the chat log in
chronological order. -/
def get_recent_messages_from_chat (chatMessages : List String) (limit : Nat) : List String :=
  ((chatMessages.reverse.take limit).reverse)

/-- A chat message row as read by get_unprocessed_done_messages. -/
structure ChatMsg where
  id : String
  content : String
  timestamp : Nat
  sender : String

/-- PROCESSED_DONE_RESPONSES at module initialization (done_message_detector.py
line 91): an empty in-memory set. -/
def initial_processed_done_responses : List String := []

/-- Membership test msg_id in PROCESSED_DONE_RESPONSES. -/
def is_processed (s : List String) (id : String) : Bool := s.contains id

/-- PROCESSED_DONE_RESPONSES.add(msg_id) (set insertion). -/
def mark_processed (s : List String) (id : String) : List String :=
  if s.contains id then s else id :: s

/-- Cache cleanup (done_message_detector.py lines 383-386): when the set
exceeds MAX_CACHE_SIZE = 1000 it is cleared entirely. -/
def clean_cache (s : List String) : List String :=
  if s.length > 1000 then [] else s

/-- A process restart re-runs module initialization: PROCESSED_DONE_RESPONSES
is recreated as an empty set (line 91). No durable store for the processed
set exists anywhere in the code. -/
def restart_detector (_ : List String) : List String := initial_processed_done_responses

/-- get_unprocessed_done_messages (done_message_detector.py lines 263-299):
from the chronological window, keep messages whose id is not in the
processed set and whose content classifies as a done message. -/
def get_unprocessed_done_messages (processed : List String) (msgs : List ChatMsg) : List ChatMsg :=
  msgs.filter (fun m => !(processed.contains m.id) && is_done_message m.content)

/-- The per-message body of process_done_responses (done_message_detector.py
lines 335-380): resolve a drop number from the message or the context;
when found, the Google Sheets update is attempted (its outcome abstracted
as sheetOk); in every branch the message id is added to
PROCESSED_DONE_RESPONSES. Returns the new processed set and whether a
resubmission was recorded. -/
def process_done_message_step (processed : List String) (recent_context : List String)
    (msg : ChatMsg) (sheetOk : Bool) : List String × Bool :=
  match find_drop_number_in_context msg.content recent_context with
  | some _ => (mark_processed processed msg.id, sheetOk)
  | none => (mark_processed processed msg.id, false)

/-- Association-list model of a Python dict from string keys to string
values: key containment. -/
def dict_contains (m : List (String × String)) (k : String) : Bool :=
  m.any (fun e => e.1 == k)

/-- Dict assignment m[k] = v, extensionally: any previous binding of k is
replaced. -/
def dict_set (m : List (String × String)) (k v : String) : List (String × String) :=
  m.filter (fun e => !(e.1 == k)) ++ [(k, v)]

/-- Dict deletion del m[k]. -/
def dict_del (m : List (String × String)) (k : String) : List (String × String) :=
  m.filter (fun e => !(e.1 == k))

/-- The tracking key f-string of qa_feedback_tracker.py: project underscore
drop_number. -/
def feedback_key (drop_number project : String) : String :=
  project ++ "_" ++ drop_number

/-- FeedbackTracker.has_feedback_been_sent (qa_feedback_tracker.py lines
40-43). The tracker state is the feedback_sent dict mapping keys to
timestamps. -/
def has_feedback_been_sent (m : List (String × String)) (drop_number project : String) : Bool :=
  dict_contains m (feedback_key drop_number project)

/-- FeedbackTracker.mark_feedback_sent (lines 45-49): record the current
timestamp under the key. -/
def mark_feedback_sent (m : List (String × String)) (drop_number project now : String) :
    List (String × String) :=
  dict_set m (feedback_key drop_number project) now

/-- FeedbackTracker.should_send_feedback (lines 51-59): force_resend
short-circuits to true; otherwise send exactly when no feedback has been
recorded for the key. -/
def should_send_feedback (m : List (String × String)) (drop_number project : String)
    (force_resend : Bool) : Bool :=
  if force_resend then true else !(has_feedback_been_sent m drop_number project)

/-- FeedbackTracker.reset_feedback_tracking (lines 82-92): delete the
record if present, otherwise leave the state unchanged. -/
def reset_feedback_tracking (m : List (String × String)) (drop_number project : String) :
    List (String × String) :=
  if dict_contains m (feedback_key drop_number project) then
    dict_del m (feedback_key drop_number project)
  else m

/-- Outcome of opening and JSON-parsing the tracker file in _load_tracker:
either the read or parse raised (unreadable or corrupt file), or it parsed
into data whose feedback_sent entry may be absent. -/
inductive TrackerLoad where
  | unreadable : TrackerLoad
  | parsed : Option (List (String × String)) → TrackerLoad

/-- FeedbackTracker._load_tracker (qa_feedback_tracker.py lines 17-26): if
the file exists, try to read and parse it, taking the feedback_sent entry
with default empty; any exception is swallowed and every failure path
returns the empty dict. -/
def _load_tracker (fileExists : Bool) (r : TrackerLoad) : List (String × String) :=
  if fileExists then
    match r with
    | TrackerLoad.parsed fs => fs.getD []
    | TrackerLoad.unreadable => []
  else []

/-- A detected drop (group_service_template.py detect_drop_numbers, lines
202-231): drop number with message metadata. -/
structure DropInfo where
  drop_number : String
  message_id : String
  sender : String
  content : String
  timestamp : String
  chat_jid : String
  service_id : String

/-- A photo_submissions row as inserted by write_to_database. -/
structure DbRecord where
  drop_number : String
  project : String
  contractor_name : String
  user_name : String
  message_id : String
  whatsapp_group_id : String
  created_at : String
  status : String
  notes : String

/-- GroupService.write_to_database (group_service_template.py lines
298-343): on a working connection (connOk abstracts the psycopg2 calls
succeeding; an exception returns False with no write), first check whether
a row with this drop_number and project exists; if so return True without
writing; otherwise insert a new pending row. -/
def write_to_database (connOk : Bool) (project now : String) (db : List DbRecord)
    (info : DropInfo) : List DbRecord × Bool :=
  if connOk = false then (db, false)
  else if db.any (fun r => r.drop_number == info.drop_number && r.project == project) then
    (db, true)
  else
    (db ++ [{ drop_number := info.drop_number,
              project := project,
              contractor_name := info.sender,
              user_name := info.sender,
              message_id := info.message_id,
              whatsapp_group_id := info.chat_jid,
              created_at := now,
              status := "pending",
              notes := "Auto-detected by " ++ project ++ " service" }], true)

/-- A spreadsheet row as appended by write_to_google_sheets (columns A-Y):
date, drop number, fourteen step checkboxes, photo counts, contractor,
status, notes fields, resubmitted and incomplete flags. -/
structure SheetRow where
  date : String
  drop_number : String
  steps : List Bool
  completed_photos : Nat
  outstanding_photos : Nat
  contractor : String
  status : String
  qa_notes : String
  comments : String
  resubmitted : Bool
  additional_notes : String
  incomplete : Bool

/-- The row_data literal of write_to_google_sheets (lines 262-276). -/
def sheet_row_data (info : DropInfo) (today : String) : SheetRow :=
  { date := today,
    drop_number := info.drop_number,
    steps := List.replicate 14 false,
    completed_photos := 0,
    outstanding_photos := 14,
    contractor := info.sender,
    status := "Processing",
    qa_notes := "",
    comments := "",
    resubmitted := false,
    additional_notes := "",
    incomplete := false }

/-- GroupService.write_to_google_sheets (group_service_template.py lines
233-296): disabled integration returns True without writing; missing
sheet id or credentials, a missing tab, or any API exception (apiOk)
returns False without writing; otherwise the row is appended to the sheet
(values().append with INSERT_ROWS) with no existence check. -/
def write_to_google_sheets (enabled configured tabConfigured apiOk : Bool) (today : String)
    (sheet : List SheetRow) (info : DropInfo) : List SheetRow × Bool :=
  if enabled = false then (sheet, true)
  else if configured = false then (sheet, false)
  else if tabConfigured = false then (sheet, false)
  else if apiOk = false then (sheet, false)
  else (sheet ++ [sheet_row_data info today], true)

/-- The two synchronization sinks of the group service. -/
inductive SinkName where
  | database : SinkName
  | sheets : SinkName
deriving DecidableEq

/-- The per-drop body of GroupService.process_detected_drops (lines
345-362): the database write is always attempted first; the Google Sheets
write is attempted exactly when the integration is enabled, regardless of
the database outcome. Each write call returns its own boolean; the code
tallies these into success_count for logging. The result carries the new
database state, the new sheet state, and the ordered per-sink outcomes. -/
def process_detected_drop (connOk sheetsEnabled configured tabConfigured apiOk : Bool)
    (project now today : String) (db : List DbRecord) (sheet : List SheetRow)
    (info : DropInfo) : List DbRecord × List SheetRow × List (SinkName × Bool) :=
  let dbr := write_to_database connOk project now db info
  if sheetsEnabled then
    let shr := write_to_google_sheets sheetsEnabled configured tabConfigured apiOk today sheet info
    (dbr.1, shr.1, [(SinkName.database, dbr.2), (SinkName.sheets, shr.2)])
  else
    (dbr.1, sheet, [(SinkName.database, dbr.2)])


/-! Helper lemmas about the embedded matcher and the dict model. -/

theorem searchDrop_cons (p : DropPat) (c : Char) (rest : List Char) :
    searchDrop p (c :: rest) =
      match matchDropAt p (c :: rest) with
      | some ds => some ds
      | none => searchDrop p rest := rfl

theorem matchDropAt_shape (p : DropPat) (s ds : List Char)
    (h : matchDropAt p s = some ds) :
    ds ≠ [] ∧ ds.length ≤ 7 ∧ ds.all Char.isDigit = true := by
  unfold matchDropAt at h
  split at h
  · cases h
  · split at h
    · cases h
    · rename_i he
      cases h
      refine ⟨?_, List.length_take_le 7 _, ?_⟩
      · intro hnil
        rw [hnil] at he
        simp at he
      · rw [List.all_eq_true]
        intro x hx
        exact List.mem_takeWhile_imp (List.take_subset _ _ hx)

theorem searchDrop_shape (p : DropPat) : ∀ (s ds : List Char),
    searchDrop p s = some ds →
    ds ≠ [] ∧ ds.length ≤ 7 ∧ ds.all Char.isDigit = true := by
  intro s
  induction s with
  | nil => intro ds h; exact matchDropAt_shape p [] ds h
  | cons c rest ih =>
      intro ds h
      rw [searchDrop_cons] at h
      cases hm : matchDropAt p (c :: rest) with
      | some ds2 =>
          rw [hm] at h
          cases h
          exact matchDropAt_shape p (c :: rest) _ hm
      | none =>
          rw [hm] at h
          exact ih ds h

theorem extractGo_shape : ∀ (pats : List DropPat) (s : List Char) (r : String),
    extractGo pats s = some r →
    ∃ ds : List Char, ds ≠ [] ∧ ds.length ≤ 7 ∧ ds.all Char.isDigit = true ∧
      r = String.mk ('D' :: 'R' :: zfill7 ds) := by
  intro pats
  induction pats with
  | nil => intro s r h; cases h
  | cons p ps ih =>
      intro s r h
      rw [extractGo] at h
      cases hs : searchDrop p s with
      | some ds =>
          rw [hs] at h
          cases h
          obtain ⟨h1, h2, h3⟩ := searchDrop_shape p s ds hs
          exact ⟨ds, h1, h2, h3, rfl⟩
      | none =>
          rw [hs] at h
          exact ih s r h

theorem zfill7_length (ds : List Char) (h : ds.length ≤ 7) : (zfill7 ds).length = 7 := by
  unfold zfill7
  by_cases hlt : ds.length < 7
  · rw [if_pos hlt]; simp; omega
  · rw [if_neg hlt]; omega

theorem zfill7_all_digit (ds : List Char) (h : ds.all Char.isDigit = true) :
    (zfill7 ds).all Char.isDigit = true := by
  unfold zfill7
  by_cases hlt : ds.length < 7
  · rw [if_pos hlt]
    rw [List.all_append, Bool.and_eq_true]
    refine ⟨?_, h⟩
    rw [List.all_eq_true]
    intro x hx
    rw [List.eq_of_mem_replicate hx]
    decide
  · rw [if_neg hlt]; exact h

theorem takeWhile_of_all {p : Char → Bool} : ∀ (l : List Char), l.all p = true →
    l.takeWhile p = l := by
  intro l
  induction l with
  | nil => intro _; rfl
  | cons c cs ih =>
      intro h
      rw [List.all_cons, Bool.and_eq_true] at h
      rw [List.takeWhile_cons, if_pos h.1]
      rw [ih h.2]

/-- Claim C10: whenever drop-number extraction returns a value, it is the
literal tag DR followed by exactly seven decimal digits: the capture group
is bounded to seven digits and shorter captures are zero-padded to
seven. -/
theorem extracted_drop_number_canonical_shape (content r : String)
    (h : extract_drop_number_from_message content = some r) :
    ∃ ds : List Char, ds.length = 7 ∧ ds.all Char.isDigit = true ∧
      r = String.mk ('D' :: 'R' :: ds) := by
  obtain ⟨ds, hne, hle, hdig, hr⟩ := extractGo_shape dropPatterns content.data r h
  exact ⟨zfill7 ds, zfill7_length ds hle, zfill7_all_digit ds hdig, hr⟩

/-- Witness for C10 at a concrete message. -/
theorem extracted_drop_number_canonical_shape_witness :
    extract_drop_number_from_message "Resubmitted DR12" = some "DR0000012" ∧
    ∃ ds : List Char, ds.length = 7 ∧ ds.all Char.isDigit = true ∧
      "DR0000012" = String.mk ('D' :: 'R' :: ds) :=
  ⟨by decide,
   extracted_drop_number_canonical_shape "Resubmitted DR12" "DR0000012" (by decide)⟩

/-- Claim C5, counterexample: a digit run longer than seven is not used
as-is; the capture group is bounded to seven digits, so the extraction
truncates DR12345678 to DR1234567. -/
theorem wide_digit_run_truncated :
    extract_drop_number_from_message "DR12345678" = some "DR1234567" ∧
    extract_drop_number_from_message "DR12345678" ≠ some "DR12345678" :=
  ⟨by decide, by decide⟩

/-- Claim C5 (amended): an extracted digit sequence shorter than seven
digits is zero-padded on the left and a sequence of exactly seven digits
passes through unchanged, but of a longer digit run only the first seven
digits are captured (the regex quantifier bounds the capture, truncating
the run). The statement evaluates the extraction on the tag DR followed by
an arbitrary nonempty digit run. -/
theorem drop_number_padding_and_truncation (ds : List Char) (hne : ds ≠ [])
    (hdig : ds.all Char.isDigit = true) :
    extract_drop_number_from_message (String.mk ('D' :: 'R' :: ds))
      = some (String.mk ('D' :: 'R' :: zfill7 (ds.take 7))) := by
  have htw : ds.takeWhile Char.isDigit = ds := takeWhile_of_all ds hdig
  have hie : (ds.take 7).isEmpty = false := by
    cases ds with
    | nil => exact absurd rfl hne
    | cons c t => rfl
  have hmd : matchDropAt ⟨[PTok.lit "DR".data]⟩ ('D' :: 'R' :: ds) = some (ds.take 7) := by
    unfold matchDropAt
    have hmt : matchToks [PTok.lit "DR".data] ('D' :: 'R' :: ds) = some ds := by
      rw [show ("DR".data : List Char) = ['D', 'R'] from rfl]
      simp [matchToks, matchLit]
    simp [hmt, htw, hie]
  have hsearch : searchDrop ⟨[PTok.lit "DR".data]⟩ ('D' :: 'R' :: ds) = some (ds.take 7) := by
    rw [searchDrop_cons, hmd]
  rw [extract_drop_number_from_message]
  rw [show (String.mk ('D' :: 'R' :: ds)).data = 'D' :: 'R' :: ds from rfl]
  rw [dropPatterns, extractGo, hsearch]

/-- Witness for the amended C5 at a three-digit capture. -/
theorem drop_number_padding_and_truncation_witness :
    (("123".data : List Char) ≠ [] ∧ ("123".data : List Char).all Char.isDigit = true) ∧
    extract_drop_number_from_message (String.mk ('D' :: 'R' :: "123".data))
      = some (String.mk ('D' :: 'R' :: zfill7 (("123".data : List Char).take 7))) :=
  ⟨⟨by decide, by decide⟩,
   drop_number_padding_and_truncation "123".data (by decide) (by decide)⟩

theorem extractGo_append_none (qs ps : List DropPat) (s : List Char)
    (h : ∀ q ∈ qs, searchDrop q s = none) :
    extractGo (qs ++ ps) s = extractGo ps s := by
  induction qs with
  | nil => rfl
  | cons q qs ih =>
      rw [List.cons_append, extractGo]
      rw [h q (List.mem_cons_self q qs)]
      exact ih (fun x hx => h x (List.mem_cons_of_mem q hx))

/-- Claim C7: the extraction patterns are tried in their fixed priority
order; whatever comes earlier positionally in the string, the result is
the capture of the first pattern in the list that matches anywhere. -/
theorem resolver_priority_order (content : String) (qs ps : List DropPat) (p : DropPat)
    (hlist : dropPatterns = qs ++ p :: ps)
    (hqs : ∀ q ∈ qs, searchDrop q content.data = none)
    (ds : List Char) (hp : searchDrop p content.data = some ds) :
    extract_drop_number_from_message content = some (String.mk ('D' :: 'R' :: zfill7 ds)) := by
  rw [extract_drop_number_from_message, hlist,
    extractGo_append_none qs (p :: ps) content.data hqs, extractGo, hp]

/-- Witness for C7: in the message drop 66 then DR: 55 the colon pattern
(priority 3) matches later in the string than the bare drop pattern
(priority 7), yet the result is DR0000055, not DR0000066. -/
theorem resolver_priority_order_witness :
    (searchDrop ⟨[PTok.lit "DR:".data, PTok.ws]⟩ ("drop 66 then DR: 55").data
        = some ['5', '5'] ∧
      String.mk ('D' :: 'R' :: zfill7 ['5', '5']) = "DR0000055" ∧
      extract_drop_number_from_message "drop 66" = some "DR0000066") ∧
    extract_drop_number_from_message "drop 66 then DR: 55"
      = some (String.mk ('D' :: 'R' :: zfill7 ['5', '5'])) :=
  ⟨⟨by decide, by decide, by decide⟩,
   resolver_priority_order "drop 66 then DR: 55"
     [⟨[PTok.lit "DR".data]⟩, ⟨[PTok.lit "dr".data]⟩]
     [⟨[PTok.lit "dr:".data, PTok.ws]⟩,
      ⟨[PTok.lit "Drop:".data, PTok.ws, PTok.lit "DR".data]⟩,
      ⟨[PTok.lit "drop:".data, PTok.ws, PTok.lit "dr".data]⟩,
      ⟨[PTok.lit "Drop".data, PTok.ws]⟩,
      ⟨[PTok.lit "drop".data, PTok.ws]⟩,
      ⟨[PTok.lit "drop".data, PTok.ws, PTok.lit "number".data, PTok.ws]⟩]
     ⟨[PTok.lit "DR:".data, PTok.ws]⟩
     rfl
     (by decide)
     ['5', '5']
     (by decide)⟩

/-- Claim C4, code evaluation at the failing input: with the chronological
context produced by get_recent_messages_from_chat, the scan examines the
oldest entries of the window first, so it returns the key of the least
recent matching entry (DR0000001 rather than DR0000002), and an
identifier deeper than the first ten chronological entries is never
examined at all. -/
theorem context_scan_oldest_first_eval :
    find_drop_number_in_context "all done"
        (get_recent_messages_from_chat
          ["working on DR0000001", "now doing DR0000002"] 50)
      = some "DR0000001" ∧
    find_drop_number_in_context "all done"
        (get_recent_messages_from_chat
          (List.replicate 10 "hello team" ++ ["finished DR0000002"]) 50)
      = none ∧
    extract_drop_number_from_message "now doing DR0000002" = some "DR0000002" ∧
    extract_drop_number_from_message "finished DR0000002" = some "DR0000002" :=
  ⟨by decide, by decide, by decide, by decide⟩

theorem pyStrip_of_all_space (s : List Char) (h : s.all pyIsSpace = true) :
    pyStrip s = [] := by
  have h1 : s.dropWhile pyIsSpace = [] := by
    rw [List.dropWhile_eq_nil_iff]
    intro x hx
    rw [List.all_eq_true] at h
    exact h x hx
  rw [pyStrip, h1]
  rfl

/-- Claim C6: classification is a pure function of the content string
(the embedding is a total function, so determinism and absence of side
effects are immediate); empty or whitespace-only content classifies as
none, and any single completion-pattern match on the lowered, stripped
content yields the completion classification regardless of further
matches. -/
theorem classify_purity (content : String) :
    (content.data.all pyIsSpace = true → is_done_message content = false) ∧
    ((pyStrip content.data).isEmpty = false →
      donePatterns.any (fun p => searchBLit p none (pyStrip (pyLower content.data))) = true →
      is_done_message content = true) := by
  constructor
  · intro h
    rw [is_done_message]
    rw [pyStrip_of_all_space content.data h]
    simp
  · intro h1 h2
    rw [is_done_message]
    have hne : content.data.isEmpty = false := by
      cases hd : content.data with
      | nil =>
          rw [hd] at h1
          exact absurd h1 (by decide)
      | cons c t => rfl
    rw [hne, h1]
    simpa using h2

/-- Witness for C6: a whitespace-only message classifies false; a Dutch
completion keyword classifies true. -/
theorem classify_purity_witness :
    (("  \t ".data.all pyIsSpace = true) ∧ is_done_message "  \t " = false) ∧
    ((pyStrip "Alles klaar".data).isEmpty = false ∧
      donePatterns.any
        (fun p => searchBLit p none (pyStrip (pyLower "Alles klaar".data))) = true ∧
      is_done_message "Alles klaar" = true) :=
  ⟨⟨by decide, (classify_purity "  \t ").1 (by decide)⟩,
   ⟨by decide, by decide, (classify_purity "Alles klaar").2 (by decide) (by decide)⟩⟩

theorem is_processed_mark (s : List String) (id : String) :
    is_processed (mark_processed s id) id = true := by
  by_cases hc : s.contains id = true
  · rw [is_processed, mark_processed, if_pos hc]
    exact hc
  · rw [is_processed, mark_processed, if_neg hc]
    simp

/-- Claim C2, counterexample: the processed set is an in-memory module
variable with no durable store; a restart re-runs module initialization
and recreates it empty, so a message id marked processed before the
restart is reported unprocessed after it. -/
theorem processed_set_lost_on_restart :
    is_processed (mark_processed initial_processed_done_responses "3EB0ABCD") "3EB0ABCD"
      = true ∧
    is_processed
        (restart_detector (mark_processed initial_processed_done_responses "3EB0ABCD"))
        "3EB0ABCD"
      = false :=
  ⟨by decide, by decide⟩

/-- Claim C2 (amended): within a single process lifetime, a message id is
unprocessed initially, processed forever after MarkProcessed (marking
other ids preserves this), and a processed id is never re-selected by
get_unprocessed_done_messages; but the set is reinitialized empty on
restart, so the durability clause of the claim fails. -/
theorem processed_set_within_run_invariant (s t : List String) (id id2 : String)
    (msgs : List ChatMsg) (h : is_processed s id = true) :
    is_processed initial_processed_done_responses id = false ∧
    is_processed (mark_processed t id) id = true ∧
    is_processed (mark_processed s id2) id = true ∧
    (get_unprocessed_done_messages s msgs).all (fun m => !(m.id == id)) = true ∧
    is_processed (restart_detector s) id = false := by
  refine ⟨rfl, is_processed_mark t id, ?_, ?_, rfl⟩
  · rw [is_processed] at h ⊢
    rw [mark_processed]
    by_cases hc : s.contains id2 = true
    · rw [if_pos hc]; exact h
    · rw [if_neg hc]
      have hmem : id ∈ s := by simpa using h
      simp [hmem]
  · rw [List.all_eq_true]
    intro m hm
    rw [get_unprocessed_done_messages, List.mem_filter, Bool.and_eq_true] at hm
    obtain ⟨-, hskip, -⟩ := hm
    cases hEq : (m.id == id) with
    | false => rfl
    | true =>
        exfalso
        have hid : m.id = id := by simpa using hEq
        rw [is_processed] at h
        rw [hid] at hskip
        rw [h] at hskip
        exact absurd hskip (by decide)

/-- Witness for the amended C2 at a concrete marked id. -/
theorem processed_set_within_run_invariant_witness :
    is_processed ["m1"] "m1" = true ∧
    (is_processed initial_processed_done_responses "m1" = false ∧
     is_processed (mark_processed [] "m1") "m1" = true ∧
     is_processed (mark_processed ["m1"] "m2") "m1" = true ∧
     (get_unprocessed_done_messages ["m1"]
        [{ id := "m1", content := "done", timestamp := 5, sender := "alice" }]).all
        (fun m => !(m.id == "m1")) = true ∧
     is_processed (restart_detector ["m1"]) "m1" = false) :=
  ⟨by decide,
   processed_set_within_run_invariant ["m1"] [] "m1" "m2"
     [{ id := "m1", content := "done", timestamp := 5, sender := "alice" }] (by decide)⟩

theorem dict_contains_set (m : List (String × String)) (k v : String) :
    dict_contains (dict_set m k v) k = true := by
  rw [dict_contains, dict_set, List.any_append]
  simp

theorem dict_contains_del (m : List (String × String)) (k : String) :
    dict_contains (dict_del m k) k = false := by
  rw [dict_contains, dict_del]
  rw [Bool.eq_false_iff]
  intro hany
  rw [List.any_eq_true] at hany
  obtain ⟨e, he, hk⟩ := hany
  rw [List.mem_filter] at he
  rw [hk] at he
  exact absurd he.2 (by decide)

/-- Claim C3: the per-key notification state machine of the feedback
tracker: in the initial (absent) state a non-forced query returns true and
in general it returns the negation of the recorded flag; after
mark_feedback_sent it returns false; after reset_feedback_tracking of a
marked key the record is deleted and it returns true again. -/
theorem feedback_notification_state_machine (m : List (String × String)) (d p t : String) :
    should_send_feedback [] d p false = true ∧
    should_send_feedback m d p false = !(has_feedback_been_sent m d p) ∧
    should_send_feedback (mark_feedback_sent m d p t) d p false = false ∧
    should_send_feedback (reset_feedback_tracking (mark_feedback_sent m d p t) d p) d p false
      = true := by
  refine ⟨rfl, rfl, ?_, ?_⟩
  · rw [should_send_feedback, if_neg (by decide)]
    rw [has_feedback_been_sent, mark_feedback_sent, dict_contains_set]
    rfl
  · rw [should_send_feedback, if_neg (by decide)]
    rw [has_feedback_been_sent]
    rw [reset_feedback_tracking, mark_feedback_sent]
    rw [if_pos (dict_contains_set m (feedback_key d p) t)]
    rw [dict_contains_del]
    rfl

/-- Claim C9, counterexample: loading an unreadable (corrupt) tracker file
is not fatal; the exception is swallowed, initialization completes with an
empty store, and the tracker immediately operates over it (a fresh key is
reported as should-send). -/
theorem corrupt_tracker_not_fatal :
    _load_tracker true TrackerLoad.unreadable = [] ∧
    should_send_feedback (_load_tracker true TrackerLoad.unreadable)
      "DR0000123" "Velo Test" false = true :=
  ⟨rfl, rfl⟩

/-- Claim C9 (amended): an unreadable tracker store file is silently
replaced by an empty store at startup; initialization never fails, and the
tracker starts and answers queries as if over a freshly reinitialized
empty store, whether or not the file exists. -/
theorem load_tracker_swallows_corruption (fileExists : Bool) (d p : String) :
    _load_tracker fileExists TrackerLoad.unreadable = [] ∧
    should_send_feedback (_load_tracker fileExists TrackerLoad.unreadable) d p false = true := by
  cases fileExists with
  | false => exact ⟨rfl, rfl⟩
  | true => exact ⟨rfl, rfl⟩

/-- Claim C1, counterexample: the Google Sheets sink performs no existence
check; calling the write twice for the same detected drop appends the row
twice, leaving two rows for the key DR0000123 where the claim requires
exactly one logical record. -/
theorem sheets_sink_double_write_duplicates :
    ((write_to_google_sheets true true true true "2026/10/12"
        (write_to_google_sheets true true true true "2026/10/12" []
          { drop_number := "DR0000123", message_id := "msg1", sender := "alice",
            content := "DR0000123", timestamp := "2026-10-12", chat_jid := "jid",
            service_id := "velo_test" }).1
        { drop_number := "DR0000123", message_id := "msg1", sender := "alice",
          content := "DR0000123", timestamp := "2026-10-12", chat_jid := "jid",
          service_id := "velo_test" }).1.filter
      (fun r => r.drop_number == "DR0000123")).length = 2 := by decide

/-- Claim C1 (amended): synchronizing the same key and fact twice is
idempotent for the database sink — the second call finds the existing row
and leaves the table unchanged, with exactly one matching record whose
fields come from a single application — but the Google Sheets sink appends
unconditionally, so the second call adds a duplicate row there. -/
theorem synchronize_idempotence_per_sink (db : List DbRecord) (sheet : List SheetRow)
    (info : DropInfo) (project now today : String) :
    write_to_database true project now (write_to_database true project now db info).1 info
      = ((write_to_database true project now db info).1, true) ∧
    ((write_to_database true project now [] info).1.filter
      (fun r => r.drop_number == info.drop_number && r.project == project)).length = 1 ∧
    (write_to_google_sheets true true true true today
        (write_to_google_sheets true true true true today sheet info).1 info).1
      = (sheet ++ [sheet_row_data info today]) ++ [sheet_row_data info today] := by
  refine ⟨?_, ?_, ?_⟩
  · have hA : ((write_to_database true project now db info).1.any
        fun r => r.drop_number == info.drop_number && r.project == project) = true := by
      rw [write_to_database, if_neg (by decide)]
      by_cases hex : (db.any
          fun r => r.drop_number == info.drop_number && r.project == project) = true
      · rw [if_pos hex]; exact hex
      · rw [if_neg hex]
        simp [List.any_append]
    rw [write_to_database, if_neg (by decide), if_pos hA]
  · rw [write_to_database, if_neg (by decide), if_neg (by simp)]
    simp
  · simp [write_to_google_sheets]

/-- Claim C8: with the Google Sheets integration enabled, a database-sink
failure (or success) never changes that the sheets sink is attempted and
its state updated; the cycle reports one boolean outcome per sink rather
than a single combined boolean; and in the done-message path the message
id is marked processed whatever the resolution and sink outcomes were. -/
theorem partial_sink_failure_isolation (connOk apiOk sheetOk : Bool)
    (project now today : String) (db : List DbRecord) (sheet : List SheetRow)
    (info : DropInfo) (processed : List String) (recent_context : List String)
    (msg : ChatMsg) :
    (process_detected_drop connOk true true true apiOk project now today db sheet info).2.2
      = [(SinkName.database, (write_to_database connOk project now db info).2),
         (SinkName.sheets, (write_to_google_sheets true true true apiOk today sheet info).2)] ∧
    (process_detected_drop connOk true true true apiOk project now today db sheet info).2.1
      = (write_to_google_sheets true true true apiOk today sheet info).1 ∧
    is_processed (process_done_message_step processed recent_context msg sheetOk).1 msg.id
      = true := by
  refine ⟨rfl, rfl, ?_⟩
  rw [process_done_message_step]
  cases hf : find_drop_number_in_context msg.content recent_context with
  | some d => exact is_processed_mark processed msg.id
  | none => exact is_processed_mark processed msg.id
